import Mathlib

/-!
Shallow embedding of the media transfer and playback control subsystem of
the uperandloader browser client, translated from
src/services/apiService.ts, src/components/MediaPreview.tsx and
src/App.tsx.  JS numbers are modelled as rationals, JS strings as Lean
strings, nullable references as Option, and each event handler as a pure
function from its inputs and the component state to the updated state or
outcome.
-/

/-- Outcome of finishing the XHR of downloadWithProgress
(src/services/apiService.ts, lines 144 to 163): whether the promise
resolved, the message of the Error passed to reject when it did not, and
whether a blob object URL was materialized and a save action (anchor
click) was triggered. -/
structure DownloadCompletion where
  resolved : Bool
  rejectMsg : Option String
  blobMaterialized : Bool
  saveTriggered : Bool
deriving DecidableEq

/-- The onload handler of downloadWithProgress: on status 200 it takes the
blob response, creates an object URL, appends an anchor, clicks it,
revokes the URL and resolves; on any other status it rejects with
Error "Download failed" and touches no blob. -/
def downloadOnload (status : Nat) : DownloadCompletion :=
  if status = 200 then
    { resolved := true, rejectMsg := none,
      blobMaterialized := true, saveTriggered := true }
  else
    { resolved := false, rejectMsg := some "Download failed",
      blobMaterialized := false, saveTriggered := false }

/-- The onerror handler of downloadWithProgress: rejects with
Error "Network error during download". -/
def downloadOnerror : DownloadCompletion :=
  { resolved := false, rejectMsg := some "Network error during download",
    blobMaterialized := false, saveTriggered := false }

/-- The onprogress handler of downloadWithProgress
(src/services/apiService.ts, lines 137 to 142): when the event has
lengthComputable it invokes onProgress with loaded / total * 100,
otherwise the callback is not invoked.  The returned Option is the
argument of the single onProgress invocation, when there is one. -/
def downloadOnprogress (lengthComputable : Bool) (loaded total : ℚ) :
    Option ℚ :=
  if lengthComputable then some (loaded / total * 100) else none

/-- The xhr.upload.onprogress handler of uploadFileWithProgress
(src/services/apiService.ts, lines 80 to 85), identical in shape to the
download one. -/
def uploadOnprogress (lengthComputable : Bool) (loaded total : ℚ) :
    Option ℚ :=
  if lengthComputable then some (loaded / total * 100) else none

/-- Settlement of the promise of uploadFileWithProgress: either resolved
with the value produced by JSON.parse on the response text, or rejected
with an Error message.  The response value is kept polymorphic because JS
is untyped. -/
inductive UploadOutcome (α : Type) where
  | resolved (response : α)
  | rejected (msg : String)
deriving DecidableEq

/-- The onload handler of uploadFileWithProgress
(src/services/apiService.ts, lines 87 to 98).  The JSON.parse call is
represented by its result: some value when the response text parses,
none when parsing throws. -/
def uploadOnload {α : Type} (status : Nat) (parsed : Option α) :
    UploadOutcome α :=
  if 200 ≤ status ∧ status < 300 then
    match parsed with
    | some response => UploadOutcome.resolved response
    | none => UploadOutcome.rejected "Invalid JSON response"
  else
    UploadOutcome.rejected ("Upload failed with status: " ++ toString status)

/-- The onerror handler of uploadFileWithProgress
(src/services/apiService.ts, lines 100 to 102). -/
def uploadOnerror (α : Type) : UploadOutcome α :=
  UploadOutcome.rejected "Network Error during upload"

/-- The member names the ApiService object literal defines
(src/services/apiService.ts, lines 5 to 168), in source order. -/
def apiServiceMembers : List String :=
  ["getBaseUrl", "setBaseUrl", "getList", "uploadFileWithProgress",
   "getDownloadUrl", "downloadWithProgress"]

/-- The slice of the App component state that the upload handler touches
(src/App.tsx): the description input, the uploading flag, and a flag
recording whether fetchItems was invoked to refresh the listing. -/
structure AppState where
  uploadText : String
  isUploading : Bool
  listingRefreshed : Bool
deriving DecidableEq

/-- The try / catch / finally data flow of handleUpload
(src/App.tsx, lines 191 to 207), parameterized by the settlement of the
awaited upload call: on success the description is cleared and fetchItems
runs; on a thrown error only the alert fires; finally always clears the
uploading flag.  When the change event carries no files the handler
returns before touching any state. -/
def handleUploadWith (result : Except String Unit) (hasFiles : Bool)
    (s : AppState) : AppState :=
  if hasFiles then
    match result with
    | Except.ok _ =>
      { s with uploadText := "", listingRefreshed := true, isUploading := false }
    | Except.error _ => { s with isUploading := false }
  else s

/-- Evaluation of the call ApiService.uploadFile(file, description) on
src/App.tsx line 199 under JS semantics: reading a member that the object
does not define yields undefined, and calling undefined throws a
TypeError before any request is issued. -/
def uploadFileCall : Except String Unit :=
  if "uploadFile" ∈ apiServiceMembers then Except.ok ()
  else Except.error "TypeError: ApiService.uploadFile is not a function"

/-- The handleUpload handler of src/App.tsx as it actually runs: the
awaited call is uploadFileCall. -/
def handleUpload (hasFiles : Bool) (s : AppState) : AppState :=
  handleUploadWith uploadFileCall hasFiles s

/-- The mutable attributes of the rendered HTML media element that the
MediaPreview handlers read and write (src/components/MediaPreview.tsx). -/
structure MediaElem where
  paused : Bool
  currentTime : ℚ
  playbackRate : ℚ
  muted : Bool
deriving DecidableEq

/-- The React state of the MediaPreview component
(src/components/MediaPreview.tsx, lines 16 to 27) together with the media
element reference, which is none when neither videoRef nor audioRef is
attached. -/
structure PreviewState where
  isPlaying : Bool
  volume : ℚ
  isMuted : Bool
  playbackRate : ℚ
  isDownloading : Bool
  downloadProgress : ℚ
  currentTime : ℚ
  duration : ℚ
  media : Option MediaElem
deriving DecidableEq

/-- The useEffect body keyed on sourceUrl
(src/components/MediaPreview.tsx, lines 33 to 40): it runs whenever the
active preview source URL changes and resets the six transient state
values. -/
def resetOnSourceChange (s : PreviewState) : PreviewState :=
  { s with isPlaying := false, playbackRate := 1, currentTime := 0,
           duration := 0, isDownloading := false, downloadProgress := 0 }

/-- The handleSpeedChange handler
(src/components/MediaPreview.tsx, lines 57 to 61): stores the requested
speed and, when a media element is attached, writes it to the element. -/
def handleSpeedChange (speed : ℚ) (s : PreviewState) : PreviewState :=
  { s with playbackRate := speed,
           media := s.media.map fun m => { m with playbackRate := speed } }

/-- The handleSeek handler (src/components/MediaPreview.tsx, lines 68 to
73): parses the range input value, stores it as currentTime and, when a
media element is attached, writes it to the element position.  The
argument is the already parsed number. -/
def handleSeek (time : ℚ) (s : PreviewState) : PreviewState :=
  { s with currentTime := time,
           media := s.media.map fun m => { m with currentTime := time } }

/-- The handleTogglePlay handler (src/components/MediaPreview.tsx, lines
44 to 55): with an attached element, starts playback when it is paused
and pauses it otherwise, mirroring the result into isPlaying. -/
def handleTogglePlay (s : PreviewState) : PreviewState :=
  match s.media with
  | none => s
  | some m =>
    if m.paused then
      { s with isPlaying := true, media := some { m with paused := false } }
    else
      { s with isPlaying := false, media := some { m with paused := true } }

/-- Truncation toward zero, as the JS remainder operator applies to the
quotient. -/
def jsTrunc (q : ℚ) : ℤ :=
  if 0 ≤ q then ⌊q⌋ else ⌈q⌉

/-- The JS remainder a % b for finite operands:
a - b * trunc (a / b). -/
def jsRem (a b : ℚ) : ℚ :=
  a - b * (jsTrunc (a / b) : ℚ)

/-- The formatTime helper (src/components/MediaPreview.tsx, lines 75 to
79): minutes is Math.floor of time / 60, seconds is Math.floor of
time % 60, and the rendered template pads seconds with a leading zero
below ten. -/
def formatTime (time : ℚ) : String :=
  let minutes : ℤ := ⌊time / 60⌋
  let seconds : ℤ := ⌊jsRem time 60⌋
  toString minutes ++ ":" ++ (if seconds < 10 then "0" else "") ++
    toString seconds

/-- Modelled from the spec: the FileCategory enumeration of src/types.ts
is not under src/.  Spec section 3 fixes the closed set Document, Image,
Video, Audio; the dashboard navigation in src/App.tsx additionally uses
the ALL marker. -/
inductive FileCategory where
  | ALL
  | DOCUMENT
  | IMAGE
  | VIDEO
  | AUDIO
deriving DecidableEq

/-- Modelled from the spec: getCategoryFromMime of src/utils/fileUtils.ts
is not under src/.  Spec section 4.1: the content type is matched by
prefix against the known families, image to Image, video to Video, audio
to Audio, and everything unrecognized, empty or malformed falls back to
Document. -/
def getCategoryFromMime (mime : String) : FileCategory :=
  if "image/".data <+: mime.data then FileCategory.IMAGE
  else if "video/".data <+: mime.data then FileCategory.VIDEO
  else if "audio/".data <+: mime.data then FileCategory.AUDIO
  else FileCategory.DOCUMENT

/-- The four playback speed options the MediaPreview sidebar renders
(src/components/MediaPreview.tsx, line 230). -/
def speedOptions : List ℚ := [0.5, 1.0, 1.5, 2.0]

/-- A sample preview state: the initial React state of the MediaPreview
component with an attached, paused media element. -/
def samplePreview : PreviewState :=
  { isPlaying := false, volume := 1, isMuted := false, playbackRate := 1,
    isDownloading := false, downloadProgress := 0, currentTime := 0,
    duration := 0,
    media := some { paused := true, currentTime := 0, playbackRate := 1,
                    muted := false } }

/-- The sample preview state after the element reported a duration of
ten seconds. -/
def samplePreview10 : PreviewState :=
  { samplePreview with duration := 10 }

/-- C1, counterexample: against HTTP 404 the download rejects, but the
rejection value is the constant Error "Download failed": it is identical
to the rejection produced by status 403, so it cannot carry the numeric
status 404 that the claim requires.  The parts about no blob and no save
do hold. -/
theorem c1_download404_rejection_lacks_status :
    (downloadOnload 404).resolved = false ∧
    (downloadOnload 404).rejectMsg = some "Download failed" ∧
    (downloadOnload 404).rejectMsg = (downloadOnload 403).rejectMsg ∧
    (downloadOnload 404).blobMaterialized = false ∧
    (downloadOnload 404).saveTriggered = false := by
  decide

/-- C1, amended: for every non-200 status the download promise rejects
with the fixed Error "Download failed", which does not include the
numeric status, and no blob is materialized and no save action is
triggered. -/
theorem c1_downloadOnload_non200 (status : Nat) (h : status ≠ 200) :
    downloadOnload status =
      { resolved := false, rejectMsg := some "Download failed",
        blobMaterialized := false, saveTriggered := false } := by
  simp [downloadOnload, h]

/-- Witness for the amended C1 theorem at status 404. -/
theorem c1_downloadOnload_non200_witness :
    downloadOnload 404 =
      { resolved := false, rejectMsg := some "Download failed",
        blobMaterialized := false, saveTriggered := false } :=
  c1_downloadOnload_non200 404 (by decide)

/-- C2, counterexample: 0.75 is not one of the four offered speed
options, yet handleSpeedChange 0.75 is not a no-op: it overwrites the
stored playbackRate, which was 1, with 0.75 and propagates 0.75 to the
attached element. -/
theorem c2_speedChange_not_restricted :
    (0.75 : ℚ) ∉ speedOptions ∧
    samplePreview.playbackRate = 1 ∧
    (0.75 : ℚ) ≠ 1 ∧
    (handleSpeedChange 0.75 samplePreview).playbackRate = 0.75 ∧
    (handleSpeedChange 0.75 samplePreview).media =
      some { paused := true, currentTime := 0, playbackRate := 0.75,
             muted := false } := by
  refine ⟨by norm_num [speedOptions], rfl, by norm_num, rfl, rfl⟩

/-- C2, amended: handleSpeedChange performs no validation: it sets the
stored playbackRate and the rate of the attached element to any requested
value; the restriction to the four values 0.5, 1.0, 1.5, 2.0 exists only
in the list of buttons the sidebar renders. -/
theorem c2_handleSpeedChange_applies_any (speed : ℚ) (s : PreviewState) :
    (handleSpeedChange speed s).playbackRate = speed ∧
    (handleSpeedChange speed s).media =
      s.media.map fun m => { m with playbackRate := speed } :=
  ⟨rfl, rfl⟩

/-- C3, counterexample: with a reported duration of 10, seeking to 20
stores 20 as currentTime, strictly above the duration, so the handler
does not clamp the requested time to the interval from 0 to duration. -/
theorem c3_seek_does_not_clamp :
    samplePreview10.duration = 10 ∧
    (handleSeek 20 samplePreview10).currentTime = 20 ∧
    ¬ (handleSeek 20 samplePreview10).currentTime ≤ samplePreview10.duration := by
  decide

/-- C3, amended: handleSeek performs no clamping: it stores the parsed
time as currentTime and writes the same value to the attached element
position, so the two never disagree; any bounding of the requested value
comes only from the min and max attributes of the range input. -/
theorem c3_handleSeek_sets_both (time : ℚ) (s : PreviewState) :
    (handleSeek time s).currentTime = time ∧
    ∀ m, (handleSeek time s).media = some m → m.currentTime = time := by
  refine ⟨rfl, ?_⟩
  intro m hm
  have hm2 : s.media.map (fun e => { e with currentTime := time }) = some m := hm
  obtain ⟨e, he, rfl⟩ := Option.map_eq_some'.mp hm2
  rfl

/-- Witness for the amended C3 theorem: seeking to 20 on the sample state
leaves the element position equal to the stored time. -/
theorem c3_handleSeek_sets_both_witness :
    MediaElem.currentTime
      { paused := true, currentTime := 20, playbackRate := 1,
        muted := false } = 20 :=
  (c3_handleSeek_sets_both 20 samplePreview).2
    { paused := true, currentTime := 20, playbackRate := 1, muted := false }
    (by decide)

/-- C4: the ApiService object defines no member named uploadFile, its
only upload operation is uploadFileWithProgress, and therefore the call
in handleUpload throws, so the handler never clears the description and
never refreshes the listing: with files present it only clears the
uploading flag. -/
theorem c4_uploadFile_missing_handler_fails :
    "uploadFile" ∉ apiServiceMembers ∧
    "uploadFileWithProgress" ∈ apiServiceMembers ∧
    ∀ (hasFiles : Bool) (s : AppState),
      (handleUpload hasFiles s).uploadText = s.uploadText ∧
      (handleUpload hasFiles s).listingRefreshed = s.listingRefreshed ∧
      (hasFiles = true → handleUpload hasFiles s = { s with isUploading := false }) := by
  refine ⟨by decide, by decide, ?_⟩
  intro hasFiles s
  have h : uploadFileCall =
      Except.error "TypeError: ApiService.uploadFile is not a function" := rfl
  cases hasFiles <;> simp [handleUpload, handleUploadWith, h]

/-- Witness for C4 at a concrete application state with a file chosen. -/
theorem c4_uploadFile_missing_witness :
    handleUpload true
        { uploadText := "notes", isUploading := true, listingRefreshed := false } =
      { uploadText := "notes", isUploading := false, listingRefreshed := false } :=
  (c4_uploadFile_missing_handler_fails.2.2 true
    { uploadText := "notes", isUploading := true, listingRefreshed := false }).2.2 rfl

/-- C10: whenever the awaited upload call rejects, the catch branch of
handleUpload leaves the description text exactly as the caller last set
it; only the success branch clears it. -/
theorem c10_failed_upload_keeps_description (msg : String) (hasFiles : Bool)
    (s : AppState) :
    (handleUploadWith (Except.error msg) hasFiles s).uploadText = s.uploadText := by
  cases hasFiles <;> rfl

/-- C5: the upload promise resolves with the parsed envelope exactly when
the status is 2xx and the body parses as JSON; a 2xx response with an
unparseable body rejects with the protocol message, any non-2xx response
rejects with a message carrying the numeric status, and a network level
failure rejects through the onerror handler. -/
theorem c5_uploadOnload_spec (α : Type) (status : Nat) (parsed : Option α) :
    (∀ v : α, uploadOnload status parsed = UploadOutcome.resolved v ↔
        (200 ≤ status ∧ status < 300) ∧ parsed = some v) ∧
    ((200 ≤ status ∧ status < 300) ∧ parsed = none →
        uploadOnload status parsed =
          UploadOutcome.rejected "Invalid JSON response") ∧
    (¬ (200 ≤ status ∧ status < 300) →
        uploadOnload status parsed =
          UploadOutcome.rejected ("Upload failed with status: " ++ toString status)) ∧
    uploadOnerror α = UploadOutcome.rejected "Network Error during upload" := by
  unfold uploadOnload uploadOnerror
  by_cases h : 200 ≤ status ∧ status < 300
  · cases parsed <;> simp [h]
  · cases parsed <;> simp [h]

/-- Witness for C5 at status 404 with an unparseable body. -/
theorem c5_uploadOnload_spec_witness :
    uploadOnload 404 (none : Option Nat) =
      UploadOutcome.rejected ("Upload failed with status: " ++ toString 404) :=
  (c5_uploadOnload_spec Nat 404 none).2.2.1 (by decide)

/-- C6: for both directions, every invocation of the progress callback
passes exactly loaded divided by total times 100, and when the transport
reports the length as not computable the callback is never invoked. -/
theorem c6_progress_formula (lengthComputable : Bool) (loaded total p : ℚ) :
    (uploadOnprogress lengthComputable loaded total = some p →
        p = loaded / total * 100) ∧
    (downloadOnprogress lengthComputable loaded total = some p →
        p = loaded / total * 100) ∧
    uploadOnprogress false loaded total = none ∧
    downloadOnprogress false loaded total = none := by
  refine ⟨?_, ?_, rfl, rfl⟩ <;>
    · intro h
      cases lengthComputable
      · simp [uploadOnprogress, downloadOnprogress] at h
      · simp [uploadOnprogress, downloadOnprogress] at h
        exact h.symm

/-- Witness for C6: a computable length event with 50 of 100 bytes loaded
reports exactly 50 percent. -/
theorem c6_progress_formula_witness : (50 : ℚ) = 50 / 100 * 100 :=
  (c6_progress_formula true 50 100 50).1 (by norm_num [uploadOnprogress])

/-- C7: running the effect that reacts to a change of the active source
URL resets currentTime to 0, playbackRate to 1, isPlaying to false,
duration to 0, and clears the download progress display, for every prior
state. -/
theorem c7_reset_on_source_change (s : PreviewState) :
    (resetOnSourceChange s).currentTime = 0 ∧
    (resetOnSourceChange s).playbackRate = 1 ∧
    (resetOnSourceChange s).isPlaying = false ∧
    (resetOnSourceChange s).duration = 0 ∧
    (resetOnSourceChange s).downloadProgress = 0 ∧
    (resetOnSourceChange s).isDownloading = false :=
  ⟨rfl, rfl, rfl, rfl, rfl, rfl⟩

/-- C8: the classifier is a pure total function into the closed category
set: content types with the image prefix map to Image, the video prefix
to Video, the audio prefix to Audio, and the empty or any unmatched
string maps to Document; the dashboard marker ALL is never produced. -/
theorem c8_getCategoryFromMime_spec (mime : String) :
    ("image/".data <+: mime.data → getCategoryFromMime mime = FileCategory.IMAGE) ∧
    ("video/".data <+: mime.data → getCategoryFromMime mime = FileCategory.VIDEO) ∧
    ("audio/".data <+: mime.data → getCategoryFromMime mime = FileCategory.AUDIO) ∧
    (¬ "image/".data <+: mime.data → ¬ "video/".data <+: mime.data →
      ¬ "audio/".data <+: mime.data →
      getCategoryFromMime mime = FileCategory.DOCUMENT) ∧
    getCategoryFromMime "" = FileCategory.DOCUMENT ∧
    (getCategoryFromMime mime = FileCategory.DOCUMENT ∨
     getCategoryFromMime mime = FileCategory.IMAGE ∨
     getCategoryFromMime mime = FileCategory.VIDEO ∨
     getCategoryFromMime mime = FileCategory.AUDIO) := by
  refine ⟨?_, ?_, ?_, ?_, by decide, ?_⟩
  · intro hi
    simp only [getCategoryFromMime, if_pos hi]
  · intro hv
    have hni : ¬ "image/".data <+: mime.data := fun hi =>
      absurd (List.prefix_or_prefix_of_prefix hi hv) (by decide)
    simp only [getCategoryFromMime, if_neg hni, if_pos hv]
  · intro ha
    have hni : ¬ "image/".data <+: mime.data := fun hi =>
      absurd (List.prefix_or_prefix_of_prefix hi ha) (by decide)
    have hnv : ¬ "video/".data <+: mime.data := fun hv =>
      absurd (List.prefix_or_prefix_of_prefix hv ha) (by decide)
    simp only [getCategoryFromMime, if_neg hni, if_neg hnv, if_pos ha]
  · intro h1 h2 h3
    simp only [getCategoryFromMime, if_neg h1, if_neg h2, if_neg h3]
  · by_cases h1 : "image/".data <+: mime.data
    · right; left
      simp only [getCategoryFromMime, if_pos h1]
    · by_cases h2 : "video/".data <+: mime.data
      · right; right; left
        simp only [getCategoryFromMime, if_neg h1, if_pos h2]
      · by_cases h3 : "audio/".data <+: mime.data
        · right; right; right
          simp only [getCategoryFromMime, if_neg h1, if_neg h2, if_pos h3]
        · left
          simp only [getCategoryFromMime, if_neg h1, if_neg h2, if_neg h3]

/-- Witness for C8 on a concrete video content type. -/
theorem c8_getCategoryFromMime_witness :
    getCategoryFromMime "video/mp4" = FileCategory.VIDEO :=
  (c8_getCategoryFromMime_spec "video/mp4").2.1 (by decide)

/-- Helper: for a nonnegative time the JS remainder by 60 lies in the
half open interval from 0 to 60. -/
theorem jsRem60_bounds (t : ℚ) (ht : 0 ≤ t) :
    0 ≤ jsRem t 60 ∧ jsRem t 60 < 60 := by
  have h60 : (0 : ℚ) ≤ t / 60 := by positivity
  have htr : jsTrunc (t / 60) = ⌊t / 60⌋ := if_pos h60
  have heq : jsRem t 60 = 60 * Int.fract (t / 60) := by
    rw [jsRem, htr, ← Int.self_sub_floor]
    field_simp
  refine ⟨?_, ?_⟩
  · rw [heq]
    exact mul_nonneg (by norm_num) (Int.fract_nonneg _)
  · rw [heq]
    have h1 := Int.fract_lt_one (t / 60)
    nlinarith

/-- C9: formatTime renders every nonnegative time as minutes, a colon,
and a seconds value below 60 padded with a leading zero below ten, and on
the spec examples it yields the stated strings. -/
theorem c9_formatTime_spec :
    (∀ t : ℚ, 0 ≤ t →
      ∃ m s2 : ℤ, 0 ≤ m ∧ 0 ≤ s2 ∧ s2 < 60 ∧
        formatTime t =
          toString m ++ ":" ++ (if s2 < 10 then "0" else "") ++ toString s2) ∧
    formatTime 65 = "1:05" ∧ formatTime 5 = "0:05" ∧ formatTime 0 = "0:00" := by
  refine ⟨?_, ?_, ?_, ?_⟩
  · intro t ht
    have hb := jsRem60_bounds t ht
    refine ⟨⌊t / 60⌋, ⌊jsRem t 60⌋, ?_, ?_, ?_, rfl⟩
    · exact Int.floor_nonneg.mpr (by positivity)
    · exact Int.floor_nonneg.mpr hb.1
    · exact Int.floor_lt.mpr (by exact_mod_cast hb.2)
  · unfold formatTime jsRem jsTrunc
    norm_num
    rfl
  · unfold formatTime jsRem jsTrunc
    norm_num
    rfl
  · unfold formatTime jsRem jsTrunc
    norm_num
    rfl

/-- Witness for C9 at time 65. -/
theorem c9_formatTime_witness :
    ∃ m s2 : ℤ, 0 ≤ m ∧ 0 ≤ s2 ∧ s2 < 60 ∧
      formatTime 65 =
        toString m ++ ":" ++ (if s2 < 10 then "0" else "") ++ toString s2 :=
  c9_formatTime_spec.1 65 (by norm_num)
